import Mathlib

/-!
# Verification of the MySQL Kerberos authentication client plugin

A shallow embedding, in Lean 4, of the client-side Kerberos authentication
plugin (`mysql/connector/plugins/authentication_kerberos_client.py`),
together with theorems settling the specification's claims about it.

Modelling conventions:

* Python `bytes` values are `List Nat` (each element a byte value).
* Python `str` values are Lean `String`; `str.encode("utf-8")` and
  `bytes.decode()` are modelled by an explicit UTF-8 codec over `List Nat`.
* `struct.unpack` failures (`struct.error`) are the `StructError` value of an
  `Except`; GSSAPI/SSPI provider state is passed explicitly, and provider
  calls with external effects (credential acquisition, wrap/unwrap) are
  recorded in explicit call logs so that claims about "performs no call" and
  "performs exactly one call" are statable.
-/

namespace KerberosPlugin

/-! ## Packet codec: `_parse_auth_data`

Embeds the static method `_parse_auth_data` shared (as two textually
identical copies) by `MySQLKerberosAuthPlugin` and
`MySQLSSPIKerberosAuthPlugin`:

```
spn_len = struct.unpack("<H", packet[:2])[0]
packet = packet[2:]
spn = struct.unpack(f"<{spn_len}s", packet[:spn_len])[0]
packet = packet[spn_len:]
realm_len = struct.unpack("<H", packet[:2])[0]
realm = struct.unpack(f"<{realm_len}s", packet[2:])[0]
return spn.decode(), realm.decode()
```
-/

/-- The single failure value of Python's `struct.error` as raised by
`struct.unpack` on a buffer whose size does not match the format. -/
inductive StructError where
  | sizeMismatch
deriving DecidableEq, Repr

/-- `struct.unpack("<H", b)`: requires exactly two bytes and reads a
little-endian unsigned 16-bit integer. -/
def unpack_u16 (b : List Nat) : Except StructError Nat :=
  match b with
  | [b0, b1] => .ok (b0 + 256 * b1)
  | _ => .error .sizeMismatch

/-- `struct.unpack(f"<{n}s", b)`: requires exactly `n` bytes and returns
them unchanged. -/
def unpack_bytes (n : Nat) (b : List Nat) : Except StructError (List Nat) :=
  if b.length = n then .ok b else .error .sizeMismatch

/-- The byte-level core of `_parse_auth_data`: everything up to (but not
including) the final `.decode()` calls.  Python slicing `packet[:k]` /
`packet[k:]` is `List.take` / `List.drop`. -/
def parse_auth_data_bytes (packet : List Nat) :
    Except StructError (List Nat × List Nat) :=
  match unpack_u16 (packet.take 2) with
  | .error e => .error e
  | .ok spn_len =>
    let packet1 := packet.drop 2
    match unpack_bytes spn_len (packet1.take spn_len) with
    | .error e => .error e
    | .ok spn =>
      let packet2 := packet1.drop spn_len
      match unpack_u16 (packet2.take 2) with
      | .error e => .error e
      | .ok realm_len =>
        match unpack_bytes realm_len (packet2.drop 2) with
        | .error e => .error e
        | .ok realm => .ok (spn, realm)

/-! ### UTF-8 codec

Models Python's `str.encode("utf-8")` and `bytes.decode()` (strict mode:
stray continuation bytes, overlong forms, surrogates and out-of-range
leaders are rejected). -/

/-- UTF-8 encoding of a single character, as byte values. -/
def utf8EncodeCharNat (c : Char) : List Nat :=
  let n := c.toNat
  if n < 0x80 then [n]
  else if n < 0x800 then [0xC0 + n / 64, 0x80 + n % 64]
  else if n < 0x10000 then [0xE0 + n / 4096, 0x80 + n / 64 % 64, 0x80 + n % 64]
  else [0xF0 + n / 262144, 0x80 + n / 4096 % 64, 0x80 + n / 64 % 64, 0x80 + n % 64]

/-- Model of Python `s.encode("utf-8")`. -/
def pyEncode (s : String) : List Nat :=
  s.data.flatMap utf8EncodeCharNat

/-- Strict UTF-8 decoding of one code point: returns the decoded character
and the unconsumed remainder, or `none` on a malformed prefix (stray
continuation byte, overlong form, surrogate, or out-of-range leader). -/
def utf8DecodeOne (l : List Nat) : Option (Char × List Nat) :=
  match l with
  | [] => none
  | b0 :: t =>
    if b0 < 0x80 then some (Char.ofNat b0, t)
    else if b0 < 0xC2 then none
    else if b0 < 0xE0 then
      match t with
      | b1 :: t1 =>
        if 0x80 ≤ b1 ∧ b1 < 0xC0 then
          some (Char.ofNat ((b0 - 0xC0) * 64 + (b1 - 0x80)), t1)
        else none
      | [] => none
    else if b0 < 0xF0 then
      match t with
      | b1 :: b2 :: t2 =>
        if (0x80 ≤ b1 ∧ b1 < 0xC0 ∧ 0x80 ≤ b2 ∧ b2 < 0xC0)
            ∧ (b0 ≠ 0xE0 ∨ 0xA0 ≤ b1) ∧ (b0 ≠ 0xED ∨ b1 < 0xA0) then
          some (Char.ofNat ((b0 - 0xE0) * 4096 + (b1 - 0x80) * 64 + (b2 - 0x80)), t2)
        else none
      | _ => none
    else if b0 < 0xF5 then
      match t with
      | b1 :: b2 :: b3 :: t3 =>
        if (0x80 ≤ b1 ∧ b1 < 0xC0 ∧ 0x80 ≤ b2 ∧ b2 < 0xC0 ∧ 0x80 ≤ b3 ∧ b3 < 0xC0)
            ∧ (b0 ≠ 0xF0 ∨ 0x90 ≤ b1) ∧ (b0 ≠ 0xF4 ∨ b1 < 0x90) then
          some (Char.ofNat
            ((b0 - 0xF0) * 262144 + (b1 - 0x80) * 4096 + (b2 - 0x80) * 64 + (b3 - 0x80)), t3)
        else none
      | _ => none
    else none

/-- Strict UTF-8 decoding loop, structurally recursive on a fuel argument.
Every successful `utf8DecodeOne` step strictly consumes input
(`utf8DecodeOne_shrink`), so fuel equal to the buffer length never runs
out. -/
def utf8DecodeFuel : Nat → List Nat → Option (List Char)
  | _, [] => some []
  | 0, _ :: _ => none
  | fuel + 1, b0 :: t =>
    match utf8DecodeOne (b0 :: t) with
    | none => none
    | some (c, rest) =>
      match utf8DecodeFuel fuel rest with
      | some cs => some (c :: cs)
      | none => none

/-- Strict UTF-8 decoder over byte values; `none` models
`UnicodeDecodeError`. -/
def utf8DecodeList (l : List Nat) : Option (List Char) :=
  utf8DecodeFuel l.length l

set_option maxRecDepth 4096 in
/-- A successful single-code-point decode strictly consumes input, so the
fuel in `utf8DecodeList` is always sufficient. -/
theorem utf8DecodeOne_shrink (l : List Nat) (c : Char) (r : List Nat)
    (h : utf8DecodeOne l = some (c, r)) : r.length < l.length := by
  match l with
  | [] => simp [utf8DecodeOne] at h
  | [b0] =>
    simp only [utf8DecodeOne] at h
    split_ifs at h <;> cases h <;> simp
  | [b0, b1] =>
    simp only [utf8DecodeOne] at h
    split_ifs at h <;> cases h <;> simp
  | [b0, b1, b2] =>
    simp only [utf8DecodeOne] at h
    split_ifs at h <;> cases h <;> simp
  | b0 :: b1 :: b2 :: b3 :: t =>
    simp only [utf8DecodeOne] at h
    split_ifs at h <;> cases h <;> simp <;> omega

/-- Model of Python `b.decode()` (UTF-8, strict). -/
def pyDecode (b : List Nat) : Option String :=
  (utf8DecodeList b).map fun cs => String.mk cs

/-- Failures of `_parse_auth_data`: a `struct.error` from one of the four
`unpack` calls, or a `UnicodeDecodeError` from `.decode()`. -/
inductive ParseError where
  | structError
  | unicodeError
deriving DecidableEq, Repr

/-- The full `_parse_auth_data`: byte-level extraction followed by the two
`.decode()` calls. -/
def parse_auth_data (packet : List Nat) : Except ParseError (String × String) :=
  match parse_auth_data_bytes packet with
  | .error _ => .error .structError
  | .ok (spnB, realmB) =>
    match pyDecode spnB, pyDecode realmB with
    | some spn, some realm => .ok (spn, realm)
    | _, _ => .error .unicodeError

/-! ### Spec-modelled encoder

The repository contains no encoder (the server produces these packets); the
claims describe round-trips against the wire format given in the spec. -/

/-- Little-endian two-byte encoding of a length, as produced by
`struct.pack("<H", n)` for `n < 65536`. -/
def u16le (n : Nat) : List Nat :=
  [n % 256, n / 256 % 256]

/-- Modelled from the spec: the wire format
`u16 spn_len | spn_bytes[spn_len] | u16 realm_len | realm_bytes[realm_len]`
(little-endian), at the byte level.  The repository has no encoder; this
definition follows the spec's format description. -/
def encode_auth_data_bytes (spnB realmB : List Nat) : List Nat :=
  u16le spnB.length ++ spnB ++ u16le realmB.length ++ realmB

/-- Modelled from the spec: the wire format applied to strings, lengths
measured in UTF-8 bytes as the spec states. -/
def encode_auth_data (spn realm : String) : List Nat :=
  encode_auth_data_bytes (pyEncode spn) (pyEncode realm)

/-- A printable string in the sense of the spec's round-trip property:
every character is printable ASCII. -/
def isPrintableAscii (s : String) : Prop :=
  ∀ c ∈ s.data, 32 ≤ c.toNat ∧ c.toNat ≤ 126

instance (s : String) : Decidable (isPrintableAscii s) := by
  unfold isPrintableAscii; infer_instance

/-! ## Credential resolution (`MySQLKerberosAuthPlugin`)

Embeds `get_store`, `_acquire_cred_with_password` and the credential
resolution section of `auth_response` (lines 193-231).  External GSSAPI
state — the credential cache and the outcome of `gssapi.Credentials(...)` —
is an explicit `CacheState` input; acquisition calls are recorded in a call
log (an acquisition also overwrites the cache via `store_cred_into`, so an
empty log also means no cache mutation). -/

/-- Python truthiness of an optional string (`if self._username:` is false
both for `None` and for the empty string). -/
def pyTruthy : Option String → Bool
  | none => false
  | some s => s ≠ ""

/-- Outcome of the external call `gssapi.Credentials(usage="initiate")`:
cached credentials with their UPN, or the two caught error classes
(`ExpiredCredentialsError`, other `GSSError`). -/
inductive CacheState where
  | available (upn : String)
  | expired
  | unavailable
deriving DecidableEq, Repr

/-- Errors raised by the credential-resolution section: the two
`errors.InterfaceError` branches of `auth_response`. -/
inductive KrbError where
  | credentialsExpired
  | credentialsUnavailable
deriving DecidableEq, Repr

/-- A credential handle: either the cached credentials, or credentials
freshly acquired (by `_acquire_cred_with_password`) for a UPN. -/
inductive Creds where
  | cached (upn : String)
  | acquired (upn : String)
deriving DecidableEq, Repr

/-- `creds_upn.split("@", 1)` guarded by `creds_upn.find("@") != -1`:
split at the first `@`; no `@` means no realm. -/
def splitUserRealm : List Char → List Char × Option (List Char)
  | [] => ([], none)
  | c :: t =>
    if c = '@' then ([], some t)
    else
      match splitUserRealm t with
      | (u, r) => (c :: u, r)

/-- String-level wrapper for `splitUserRealm`. -/
def splitUserRealmStr (s : String) : String × Option String :=
  match splitUserRealm s.data with
  | (u, r) => (String.mk u, r.map String.mk)

/-- The credential-resolution block of `auth_response` (the `try` body and
its two `except` handlers), given the username, password, the realm parsed
from the challenge and the cache state.  Returns the credentials used (or
the raised error) together with the ordered list of
`_acquire_cred_with_password` calls, identified by their UPN argument. -/
def resolveCreds (username password : Option String) (realm : String)
    (cache : CacheState) : Except KrbError Creds × List String :=
  let upn0 : Option String :=
    if pyTruthy username then some (username.getD "" ++ "@" ++ realm) else none
  match cache with
  | .available credsUpn =>
    match splitUserRealmStr credsUpn with
    | (credsUser, credsRealm) =>
      let upn := if pyTruthy username then username.getD "" ++ "@" ++ realm
                 else credsUpn
      let step1 : Creds × List String :=
        if pyTruthy username ∧ username ≠ some credsUser ∧ password ≠ none then
          (.acquired upn, [upn])
        else (.cached credsUpn, [])
      let step2 : Creds × List String :=
        if credsRealm.getD "" ≠ "" ∧ credsRealm ≠ some realm ∧ password ≠ none then
          (.acquired upn, step1.2 ++ [upn])
        else step1
      (.ok step2.1, step2.2)
  | .expired =>
    match upn0, password with
    | some u, some _ => (.ok (.acquired u), [u])
    | _, _ => (.error .credentialsExpired, [])
  | .unavailable =>
    match upn0, password with
    | some u, some _ => (.ok (.acquired u), [u])
    | _, _ => (.error .credentialsUnavailable, [])

/-- Error raised by `get_store` when `KRB5CCNAME` is set but empty
(`errors.InterfaceError`). -/
inductive StoreError where
  | emptyKrb5ccname
deriving DecidableEq, Repr

/-- `get_store`: the credentials store dictionary.  `krb5ccnameEnv` is the
value of the `KRB5CCNAME` environment variable (`none` when unset),
`posix` is `os.name == "posix"`, `uid` is `os.getuid()`.  On non-POSIX the
default is the literal `Path("%TEMP%").joinpath("krb5cc")`. -/
def get_store (krb5ccnameEnv : Option String) (posix : Bool) (uid : Nat) :
    Except StoreError (List (String × String)) :=
  let krb5ccname := krb5ccnameEnv.getD
    (if posix then "/tmp/krb5cc_" ++ toString uid else "%TEMP%\\krb5cc")
  if krb5ccname = "" then .error .emptyKrb5ccname
  else .ok [("ccache", "FILE:" ++ krb5ccname)]

/-! ## Handshake controllers: `auth_response` on both backends

Embeds the dispatch structure of `MySQLKerberosAuthPlugin.auth_response`
and `MySQLSSPIKerberosAuthPlugin.auth_response` up to and including the
construction of the security context (`gssapi.SecurityContext` /
`sspi.ClientAuth`), which is where the two backends' behaviour on the
claims diverges. -/

/-- The required-guarantee flags passed when initiating a security
context.  `mutualAuthentication` is `RequirementFlag.mutual_authentication`
/ `ISC_REQ_MUTUAL_AUTH`, `extendedError` is `RequirementFlag.extended_error`
/ `ISC_REQ_EXTENDED_ERROR`, `delegateToPeer` is
`RequirementFlag.delegate_to_peer` / `ISC_REQ_DELEGATE`. -/
inductive ReqFlag where
  | mutualAuthentication
  | extendedError
  | delegateToPeer
deriving DecidableEq, Repr

/-- The flag tuple of `MySQLKerberosAuthPlugin.auth_response`. -/
def gssapiFlags : List ReqFlag :=
  [.mutualAuthentication, .extendedError, .delegateToPeer]

/-- The flag tuple of `MySQLSSPIKerberosAuthPlugin.auth_response`
(`ISC_REQ_MUTUAL_AUTH, ISC_REQ_DELEGATE`). -/
def sspiFlags : List ReqFlag :=
  [.mutualAuthentication, .delegateToPeer]

/-- The `auth_info` triple handed to `sspi.ClientAuth`. -/
structure SspiAuthInfo where
  user : String
  realm : Option String
  password : String
deriving DecidableEq, Repr

/-- What the first `auth_response` call does, on either backend, up to
stepping the freshly created security context. -/
inductive ClientAction where
  | passwordFallback
  | malformed
  | unicodeFailure
  | credFailure (e : KrbError)
  | gssInitiate (spn : String) (creds : Creds) (flags : List ReqFlag)
      (acquisitions : List String)
  | sspiInitiate (targetSpn : Option String) (authInfo : Option SspiAuthInfo)
      (flags : List ReqFlag)
deriving DecidableEq, Repr

/-- `MySQLKerberosAuthPlugin.auth_response`: empty or absent auth data
falls back to `prepare_password()`; otherwise the packet is parsed, the
credentials resolved, and a `gssapi.SecurityContext` is created with
`gssapiFlags`. -/
def gssapiAuthResponse (authData : Option (List Nat))
    (username password : Option String) (cache : CacheState) : ClientAction :=
  match authData with
  | none => .passwordFallback
  | some d =>
    if d.isEmpty then .passwordFallback
    else
      match parse_auth_data d with
      | .error .structError => .malformed
      | .error .unicodeError => .unicodeFailure
      | .ok (spn, realm) =>
        match resolveCreds username password realm cache with
        | (.error e, _) => .credFailure e
        | (.ok creds, acqs) => .gssInitiate spn creds gssapiFlags acqs

/-- `MySQLSSPIKerberosAuthPlugin.auth_response`: no password fallback
exists on this backend; with absent or empty auth data it still constructs
`sspi.ClientAuth` with `targetspn=None`, and the flags omit
`ISC_REQ_EXTENDED_ERROR`. -/
def sspiAuthResponse (authData : Option (List Nat))
    (username password : Option String) : ClientAction :=
  let parsed : Except ParseError (Option String × Option String) :=
    match authData with
    | none => .ok (none, none)
    | some d =>
      if d.isEmpty then .ok (none, none)
      else
        match parse_auth_data d with
        | .error e => .error e
        | .ok (spn, realm) => .ok (some spn, some realm)
  match parsed with
  | .error .structError => .malformed
  | .error .unicodeError => .unicodeFailure
  | .ok (spn, realm) =>
    let authInfo : Option SspiAuthInfo :=
      if pyTruthy username ∧ pyTruthy password then
        some ⟨username.getD "", realm, password.getD ""⟩
      else none
    .sspiInitiate spn authInfo sspiFlags

/-! ## Negotiation loop and closing handshake -/

/-- A security-context provider: `step` advances the negotiation
(`SecurityContext.step` / `ClientAuth.authorize`) and `complete` queries
completion (`context.complete` / `clientauth.authenticated`). -/
structure NegotiationProvider (σ : Type) where
  step : σ → Option (List Nat) → Option (List Nat) × σ
  complete : σ → Bool

/-- `auth_continue` (identical control flow on both backends): perform one
`step` with the server challenge, then return the produced token and the
provider's completion state, together with the stepped context. -/
def auth_continue {σ : Type} (P : NegotiationProvider σ) (ctx : σ)
    (challenge : Option (List Nat)) : (Option (List Nat) × Bool) × σ :=
  match P.step ctx challenge with
  | (resp, ctx2) => ((resp, P.complete ctx2), ctx2)

/-- A scripted provider that needs a fixed number of further rounds: the
state is the number of rounds remaining, each `step` consumes one, and the
context reports complete when none remain. -/
def scriptedProvider : NegotiationProvider Nat where
  step := fun s _ => (some [0], s - 1)
  complete := fun s => s = 0

/-- Errors of `auth_accept_close_handshake`: `errors.ProgrammingError`
when the context is not complete, `errors.InterfaceError` when `unwrap`
raises `BadMICError`. -/
inductive CloseError where
  | programmingError
  | interfaceError
deriving DecidableEq, Repr

/-- The established GSSAPI context as seen by
`auth_accept_close_handshake`: its completion flag and the behaviour of
the provider's `unwrap` (`none` models `BadMICError`) and `wrap`
primitives. -/
structure GssContext where
  complete : Bool
  unwrapRes : List Nat → Option (List Nat)
  wrapRes : List Nat → Bool → List Nat

/-- Provider calls performed by the closing handshake. -/
inductive CloseCall where
  | unwrapCall (message : List Nat)
  | wrapCall (message : List Nat) (encrypt : Bool)
deriving DecidableEq, Repr

/-- `MySQLKerberosAuthPlugin.auth_accept_close_handshake`: guard on
completion, unwrap the server message, wrap the fixed response
`b"\x01\x00\x00\x00"` with `encrypt=False` and return the wrapped
message.  The second component logs the provider calls performed. -/
def auth_accept_close_handshake (ctx : GssContext) (message : List Nat) :
    Except CloseError (List Nat) × List CloseCall :=
  if ctx.complete then
    match ctx.unwrapRes message with
    | none => (.error .interfaceError, [.unwrapCall message])
    | some _ =>
      (.ok (ctx.wrapRes [1, 0, 0, 0] false),
        [.unwrapCall message, .wrapCall [1, 0, 0, 0] false])
  else (.error .programmingError, [])

/-! ## Packet codec lemmas -/

/-- Evaluation of the byte-level parser on a buffer exposing its first two
bytes. -/
theorem parse_bytes_cons (a b : Nat) (rest : List Nat) :
    parse_auth_data_bytes (a :: b :: rest) =
      match unpack_bytes (a + 256 * b) (rest.take (a + 256 * b)) with
      | .error e => .error e
      | .ok spn =>
        match unpack_u16 ((rest.drop (a + 256 * b)).take 2) with
        | .error e => .error e
        | .ok realm_len =>
          match unpack_bytes realm_len ((rest.drop (a + 256 * b)).drop 2) with
          | .error e => .error e
          | .ok realm => .ok (spn, realm) := rfl

/-- A buffer too short to contain the SPN length field fails. -/
theorem parse_bytes_short (p : List Nat) (h : p.length < 2) :
    parse_auth_data_bytes p = .error .sizeMismatch := by
  match p with
  | [] => rfl
  | [x] => rfl
  | a :: b :: r => exact absurd h (by simp)

/-- A declared SPN length exceeding the remaining buffer fails. -/
theorem parse_bytes_spn_overrun (a b : Nat) (rest : List Nat)
    (h : rest.length < a + 256 * b) :
    parse_auth_data_bytes (a :: b :: rest) = .error .sizeMismatch := by
  rw [parse_bytes_cons]
  have hne : ¬ (a + 256 * b ≤ rest.length) := by omega
  simp [unpack_bytes, hne]

/-- Evaluation of the parser on a buffer whose SPN section is well formed:
the result is determined by what follows the SPN bytes. -/
theorem parse_bytes_wellformed (a b : Nat) (s rest2 : List Nat)
    (h : s.length = a + 256 * b) :
    parse_auth_data_bytes (a :: b :: (s ++ rest2)) =
      match rest2 with
      | c :: d :: r =>
        if r.length = c + 256 * d then .ok (s, r) else .error .sizeMismatch
      | _ => .error .sizeMismatch := by
  rw [parse_bytes_cons, List.take_left' h, List.drop_left' h]
  have hs : unpack_bytes (a + 256 * b) s = .ok s := by simp [unpack_bytes, h]
  rw [hs]
  match rest2 with
  | [] => rfl
  | [c] => rfl
  | c :: d :: r =>
    by_cases hr : r.length = c + 256 * d <;> simp [unpack_u16, unpack_bytes, hr]

/-- A successful byte-level parse decomposes the buffer exactly as two
length-prefixed sections with nothing left over. -/
theorem parse_bytes_ok_decomp (p s r : List Nat)
    (h : parse_auth_data_bytes p = .ok (s, r)) :
    ∃ a b c d, p = a :: b :: (s ++ c :: d :: r) ∧
      s.length = a + 256 * b ∧ r.length = c + 256 * d := by
  match p with
  | [] => exact absurd h (by simp [parse_auth_data_bytes, unpack_u16])
  | [x] => exact absurd h (by simp [parse_auth_data_bytes, unpack_u16])
  | a :: b :: rest =>
    by_cases hn : a + 256 * b ≤ rest.length
    · have hsplit : rest = rest.take (a + 256 * b) ++ rest.drop (a + 256 * b) :=
        (List.take_append_drop _ _).symm
      have hlen : (rest.take (a + 256 * b)).length = a + 256 * b :=
        List.length_take_of_le hn
      rw [hsplit, parse_bytes_wellformed _ _ _ _ hlen] at h
      cases hdrop : rest.drop (a + 256 * b) with
      | nil => rw [hdrop] at h; simp at h
      | cons c t =>
        cases t with
        | nil => rw [hdrop] at h; simp at h
        | cons d r2 =>
          rw [hdrop] at h
          by_cases hr : r2.length = c + 256 * d
          · simp only [hr, if_true] at h
            obtain ⟨hs, hrr⟩ : rest.take (a + 256 * b) = s ∧ r2 = r := by
              simpa using h
            refine ⟨a, b, c, d, ?_, ?_, ?_⟩
            · rw [hsplit, hdrop, hs, hrr]
            · rw [← hs]; exact hlen
            · rw [← hrr]; exact hr
          · simp [hr] at h
    · rw [parse_bytes_spn_overrun a b rest (by omega)] at h
      exact absurd h (by simp)

/-- A buffer whose realm length field is truncated fails. -/
theorem parse_bytes_realm_field_short (a b : Nat) (s rest2 : List Nat)
    (h : s.length = a + 256 * b) (h2 : rest2.length < 2) :
    parse_auth_data_bytes (a :: b :: (s ++ rest2)) = .error .sizeMismatch := by
  rw [parse_bytes_wellformed a b s rest2 h]
  match rest2 with
  | [] => rfl
  | [c] => rfl
  | c :: d :: r => exact absurd h2 (by simp)

/-- A declared realm length different from the entire remainder fails; in
particular a declared realm length exceeding the remaining buffer. -/
theorem parse_bytes_realm_mismatch (a b c d : Nat) (s r : List Nat)
    (h : s.length = a + 256 * b) (h2 : r.length ≠ c + 256 * d) :
    parse_auth_data_bytes (a :: b :: (s ++ c :: d :: r)) = .error .sizeMismatch := by
  rw [parse_bytes_wellformed a b s _ h]
  simp [h2]

/-- `u16le` really is the little-endian encoding: reading it back gives the
encoded value when it fits in 16 bits. -/
theorem u16le_roundtrip (n : Nat) (h : n < 65536) :
    n % 256 + 256 * (n / 256 % 256) = n := by
  have hdiv : n / 256 < 256 := Nat.div_lt_of_lt_mul (by omega)
  rw [Nat.mod_eq_of_lt hdiv, Nat.mod_add_div]

/-- The encoded packet, exposed as first byte pair, SPN section, second
byte pair and realm section. -/
theorem encode_bytes_shape (sB rB : List Nat) :
    encode_auth_data_bytes sB rB =
      sB.length % 256 :: sB.length / 256 % 256 ::
        (sB ++ (rB.length % 256 :: rB.length / 256 % 256 :: rB)) := by
  simp [encode_auth_data_bytes, u16le]

/-- The length of an encoded packet. -/
theorem encode_bytes_length (sB rB : List Nat) :
    (encode_auth_data_bytes sB rB).length = 4 + sB.length + rB.length := by
  simp [encode_auth_data_bytes, u16le]
  omega

/-- Parsing an encoded byte-level packet recovers both sections. -/
theorem parse_encode_bytes (sB rB : List Nat)
    (h1 : sB.length < 65536) (h2 : rB.length < 65536) :
    parse_auth_data_bytes (encode_auth_data_bytes sB rB) = .ok (sB, rB) := by
  have e1 := u16le_roundtrip sB.length h1
  have e2 := u16le_roundtrip rB.length h2
  rw [encode_bytes_shape, parse_bytes_wellformed _ _ _ _ e1.symm]
  simp [e2]

/-- Every proper truncation of an encoded byte-level packet fails to
parse. -/
theorem parse_bytes_truncation (sB rB : List Nat) (k : Nat)
    (h1 : sB.length < 65536) (h2 : rB.length < 65536)
    (hk : k < (encode_auth_data_bytes sB rB).length) :
    parse_auth_data_bytes ((encode_auth_data_bytes sB rB).take k) =
      .error .sizeMismatch := by
  have e1 := u16le_roundtrip sB.length h1
  have e2 := u16le_roundtrip rB.length h2
  rw [encode_bytes_length] at hk
  by_cases hk2 : k < 2
  · exact parse_bytes_short _ (by rw [List.length_take]; omega)
  · obtain ⟨m, rfl⟩ : ∃ m, k = m + 2 := ⟨k - 2, by omega⟩
    rw [encode_bytes_shape, List.take_succ_cons, List.take_succ_cons]
    set tail := sB ++ (rB.length % 256 :: rB.length / 256 % 256 :: rB) with htail
    have htlen : tail.length = sB.length + 2 + rB.length := by
      rw [htail]; simp; omega
    by_cases hm1 : m < sB.length
    · exact parse_bytes_spn_overrun _ _ _
        (by rw [List.length_take]; omega)
    · have htake : tail.take m =
          sB ++ (rB.length % 256 :: rB.length / 256 % 256 :: rB).take (m - sB.length) := by
        rw [htail, List.take_append_eq_append_take,
          List.take_of_length_le (by omega)]
      by_cases hm2 : m < sB.length + 2
      · rw [htake]
        exact parse_bytes_realm_field_short _ _ _ _ e1.symm
          (by rw [List.length_take]; simp; omega)
      · obtain ⟨j, hj⟩ : ∃ j, m - sB.length = j + 2 := ⟨m - sB.length - 2, by omega⟩
        rw [htake, hj, List.take_succ_cons, List.take_succ_cons]
        exact parse_bytes_realm_mismatch _ _ _ _ _ _ e1.symm
          (by rw [List.length_take, e2]; omega)

/-- Byte-level struct failures surface as `structError` in the full parser. -/
theorem parse_lift_error (p : List Nat)
    (h : parse_auth_data_bytes p = .error .sizeMismatch) :
    parse_auth_data p = .error .structError := by
  unfold parse_auth_data
  rw [h]

/-! ## UTF-8 lemmas for printable (ASCII) strings -/

/-- An ASCII character encodes to its single code-point byte. -/
theorem utf8EncodeCharNat_ascii (c : Char) (h : c.toNat < 128) :
    utf8EncodeCharNat c = [c.toNat] := by
  simp [utf8EncodeCharNat, h]

/-- ASCII character lists encode bytewise. -/
theorem flatMap_utf8_ascii (l : List Char) (h : ∀ c ∈ l, c.toNat < 128) :
    l.flatMap utf8EncodeCharNat = l.map Char.toNat := by
  induction l with
  | nil => rfl
  | cons c t ih =>
    rw [List.flatMap_cons, List.map_cons,
      utf8EncodeCharNat_ascii c (h c (by simp)),
      ih (fun x hx => h x (by simp [hx]))]
    rfl

/-- The decoder's base equation. -/
theorem utf8DecodeList_nil : utf8DecodeList [] = some [] := rfl

/-- The decoder's single-byte (ASCII) step equation. -/
theorem utf8DecodeList_cons_ascii (b : Nat) (t : List Nat) (hb : b < 128) :
    utf8DecodeList (b :: t) =
      match utf8DecodeList t with
      | some cs => some (Char.ofNat b :: cs)
      | none => none := by
  have h1 : utf8DecodeOne (b :: t) = some (Char.ofNat b, t) := by
    simp [utf8DecodeOne, hb]
  simp only [utf8DecodeList, List.length_cons, utf8DecodeFuel, h1]

/-- Decoding the bytewise encoding of an ASCII character list recovers it. -/
theorem utf8DecodeList_ascii (l : List Char) (h : ∀ c ∈ l, c.toNat < 128) :
    utf8DecodeList (l.map Char.toNat) = some l := by
  induction l with
  | nil => exact utf8DecodeList_nil
  | cons c t ih =>
    rw [List.map_cons, utf8DecodeList_cons_ascii c.toNat _ (h c (by simp)),
      ih (fun x hx => h x (by simp [hx]))]
    simp

/-- `bytes.decode()` inverts `str.encode("utf-8")` on printable strings. -/
theorem pyDecode_pyEncode_ascii (s : String)
    (h : ∀ c ∈ s.data, c.toNat < 128) :
    pyDecode (pyEncode s) = some s := by
  unfold pyEncode pyDecode
  rw [flatMap_utf8_ascii s.data h, utf8DecodeList_ascii s.data h]
  cases s
  rfl

/-! ## Claims about the packet codec -/

/-- C1: every buffer that is too short to contain a length field, or in
which a declared length field (the 2-byte SPN length or the 2-byte realm
length) exceeds the remaining buffer — in particular every proper
truncation of a validly encoded packet — makes `_parse_auth_data` fail
with a struct parse error (the MalformedPacket-class failure), never
return a silently truncated pair. -/
theorem C1_malformed_rejected :
    (∀ p : List Nat, p.length < 2 →
      parse_auth_data p = .error .structError) ∧
    (∀ (a b : Nat) (rest : List Nat), rest.length < a + 256 * b →
      parse_auth_data (a :: b :: rest) = .error .structError) ∧
    (∀ (a b : Nat) (s rest2 : List Nat), s.length = a + 256 * b →
      rest2.length < 2 →
      parse_auth_data (a :: b :: (s ++ rest2)) = .error .structError) ∧
    (∀ (a b c d : Nat) (s r : List Nat), s.length = a + 256 * b →
      r.length < c + 256 * d →
      parse_auth_data (a :: b :: (s ++ c :: d :: r)) = .error .structError) ∧
    (∀ (spn realm : String) (k : Nat), (pyEncode spn).length < 65536 →
      (pyEncode realm).length < 65536 →
      k < (encode_auth_data spn realm).length →
      parse_auth_data ((encode_auth_data spn realm).take k) =
        .error .structError) := by
  refine ⟨?_, ?_, ?_, ?_, ?_⟩
  · intro p h
    exact parse_lift_error _ (parse_bytes_short p h)
  · intro a b rest h
    exact parse_lift_error _ (parse_bytes_spn_overrun a b rest h)
  · intro a b s rest2 h h2
    exact parse_lift_error _ (parse_bytes_realm_field_short a b s rest2 h h2)
  · intro a b c d s r h h2
    exact parse_lift_error _ (parse_bytes_realm_mismatch a b c d s r h (by omega))
  · intro spn realm k h1 h2 hk
    exact parse_lift_error _ (parse_bytes_truncation _ _ k h1 h2 hk)

/-- Witness for C1 at concrete inputs: a one-byte buffer, a buffer whose
SPN length field overruns, and a truncation of a valid packet. -/
theorem C1_malformed_rejected_witness :
    (([5] : List Nat).length < 2 ∧
      parse_auth_data [5] = .error .structError) ∧
    (([9] : List Nat).length < 3 + 256 * 0 ∧
      parse_auth_data (3 :: 0 :: [9]) = .error .structError) ∧
    (3 < (encode_auth_data "ab" "R").length ∧
      parse_auth_data ((encode_auth_data "ab" "R").take 3) =
        .error .structError) :=
  ⟨⟨by decide, C1_malformed_rejected.1 [5] (by decide)⟩,
   ⟨by decide, C1_malformed_rejected.2.1 3 0 [9] (by decide)⟩,
   ⟨by decide, C1_malformed_rejected.2.2.2.2 "ab" "R" 3
      (by decide) (by decide) (by decide)⟩⟩

/-- C2: encoding a pair of printable strings in the little-endian
length-prefixed wire format (lengths in UTF-8 bytes, each fitting the
16-bit field) and parsing the result with `_parse_auth_data` yields the
original pair exactly. -/
theorem C2_codec_roundtrip (spn realm : String)
    (h1 : isPrintableAscii spn) (h2 : isPrintableAscii realm)
    (l1 : (pyEncode spn).length < 65536)
    (l2 : (pyEncode realm).length < 65536) :
    parse_auth_data (encode_auth_data spn realm) = .ok (spn, realm) := by
  have a1 : ∀ c ∈ spn.data, c.toNat < 128 := fun c hc => by
    have := h1 c hc; omega
  have a2 : ∀ c ∈ realm.data, c.toNat < 128 := fun c hc => by
    have := h2 c hc; omega
  unfold parse_auth_data encode_auth_data
  rw [parse_encode_bytes _ _ l1 l2]
  simp only [pyDecode_pyEncode_ascii spn a1, pyDecode_pyEncode_ascii realm a2]

/-- Witness for C2 at a concrete service principal and realm. -/
theorem C2_codec_roundtrip_witness :
    isPrintableAscii "HTTP/db.example.com" ∧ isPrintableAscii "EXAMPLE.COM" ∧
    (pyEncode "HTTP/db.example.com").length < 65536 ∧
    (pyEncode "EXAMPLE.COM").length < 65536 ∧
    parse_auth_data (encode_auth_data "HTTP/db.example.com" "EXAMPLE.COM") =
      .ok ("HTTP/db.example.com", "EXAMPLE.COM") :=
  ⟨by decide, by decide, by decide, by decide,
    C2_codec_roundtrip "HTTP/db.example.com" "EXAMPLE.COM"
      (by decide) (by decide) (by decide) (by decide)⟩

/-- C10: a successful parse consumes the buffer exactly —
`2 + spn_len + 2 + realm_len` bytes — and appending any non-empty trailing
bytes to a valid encoding makes parsing fail, because the realm is
unpacked against the entire remaining buffer. -/
theorem C10_exact_length_only :
    (∀ p s r, parse_auth_data_bytes p = .ok (s, r) →
      p.length = 2 + s.length + 2 + r.length) ∧
    (∀ (spn realm : String) (extra : List Nat),
      (pyEncode spn).length < 65536 → (pyEncode realm).length < 65536 →
      extra ≠ [] →
      parse_auth_data (encode_auth_data spn realm ++ extra) =
        .error .structError) := by
  constructor
  · intro p s r h
    obtain ⟨a, b, c, d, hp, hs, hr⟩ := parse_bytes_ok_decomp p s r h
    subst hp
    simp
    omega
  · intro spn realm extra h1 h2 hx
    apply parse_lift_error
    have hshape : encode_auth_data spn realm ++ extra =
        (pyEncode spn).length % 256 :: (pyEncode spn).length / 256 % 256 ::
          (pyEncode spn ++ ((pyEncode realm).length % 256 ::
            (pyEncode realm).length / 256 % 256 ::
              (pyEncode realm ++ extra))) := by
      simp [encode_auth_data, encode_auth_data_bytes, u16le]
    have hex : extra.length ≠ 0 := fun h0 => hx (List.length_eq_zero.mp h0)
    rw [hshape]
    exact parse_bytes_realm_mismatch _ _ _ _ _ _
      (u16le_roundtrip _ h1).symm
      (by rw [List.length_append, u16le_roundtrip _ h2]; omega)

/-- Witness for C10 at a concrete packet with one trailing byte. -/
theorem C10_exact_length_only_witness :
    (parse_auth_data_bytes [1, 0, 115, 1, 0, 82] = .ok ([115], [82]) ∧
      ([1, 0, 115, 1, 0, 82] : List Nat).length = 2 + 1 + 2 + 1) ∧
    ((pyEncode "s").length < 65536 ∧ (pyEncode "R").length < 65536 ∧
      ([0] : List Nat) ≠ [] ∧
      parse_auth_data (encode_auth_data "s" "R" ++ [0]) =
        .error .structError) :=
  ⟨⟨by rfl, C10_exact_length_only.1 [1, 0, 115, 1, 0, 82] [115] [82]
      (by rfl)⟩,
   ⟨by decide, by decide, by decide,
    C10_exact_length_only.2 "s" "R" [0] (by decide) (by decide) (by decide)⟩⟩

/-! ## Claims about credential resolution -/

/-- Folding a string-literal append. -/
theorem bob_at_fold (r : String) : "bob" ++ "@" ++ r = "bob@" ++ r := by
  rw [show ("bob" ++ "@" : String) = "bob@" from rfl]

/-- C3 fails as stated: with cached identity `alice@REALM1`, requested
user `bob`, a password, and a challenge realm `REALM2` differing from the
cached realm, the code re-acquires twice (once for the username mismatch,
once again for the realm mismatch), not exactly once. -/
theorem C3_counterexample :
    resolveCreds (some "bob") (some "secret") "REALM2"
        (.available "alice@REALM1") =
      (.ok (.acquired "bob@REALM2"), ["bob@REALM2", "bob@REALM2"]) ∧
    (resolveCreds (some "bob") (some "secret") "REALM2"
        (.available "alice@REALM1")).2.length ≠ 1 :=
  ⟨by rfl, by decide⟩

/-- C3 (amended): with cached identity `alice@REALM1`, requested user
`bob` and a password supplied, every re-acquisition uses the identity
`bob@<challenge realm>`; when the challenge realm equals the cached realm
`REALM1` exactly one re-acquisition is performed, and when it differs the
same re-acquisition is performed twice. -/
theorem C3_reacquisition_identity (realm pw : String) :
    resolveCreds (some "bob") (some pw) realm (.available "alice@REALM1") =
      (.ok (.acquired ("bob@" ++ realm)),
        if realm = "REALM1" then ["bob@" ++ realm]
        else ["bob@" ++ realm, "bob@" ++ realm]) := by
  have hsplit : splitUserRealmStr "alice@REALM1" = ("alice", some "REALM1") := by
    decide
  by_cases hr : realm = "REALM1"
  · subst hr
    simp [resolveCreds, hsplit, pyTruthy, bob_at_fold]
  · simp [resolveCreds, hsplit, pyTruthy, bob_at_fold, hr, Ne.symm hr]

/-- Witness for C3 (amended) at both a matching and a differing realm. -/
theorem C3_reacquisition_identity_witness :
    resolveCreds (some "bob") (some "pw") "REALM1"
        (.available "alice@REALM1") =
      (.ok (.acquired "bob@REALM1"), ["bob@REALM1"]) ∧
    resolveCreds (some "bob") (some "pw") "REALM9"
        (.available "alice@REALM1") =
      (.ok (.acquired "bob@REALM9"), ["bob@REALM9", "bob@REALM9"]) := by
  have h1 := C3_reacquisition_identity "REALM1" "pw"
  have h2 := C3_reacquisition_identity "REALM9" "pw"
  simp only [if_pos rfl] at h1
  rw [if_neg (by decide)] at h2
  exact ⟨h1, h2⟩

/-- C4 fails as stated: with no readable cache, a password supplied but no
username, recovery does not happen — the code still raises the
`CredentialsUnavailable`-class error (`upn` is `None`, so the handler
re-raises instead of re-acquiring). -/
theorem C4_counterexample :
    resolveCreds none (some "pw") "EXAMPLE.COM" .unavailable =
      (.error .credentialsUnavailable, []) :=
  rfl

/-- C4 (amended): with no readable cached credentials and no password,
resolution fails with the `CredentialsUnavailable`-class error and
performs no acquisition (and hence no cache mutation); with a password
and a non-empty username it recovers by one re-acquisition for
`username@realm`; with a password but no username the failure is still
terminal. -/
theorem C4_no_password_terminal :
    (∀ (u : Option String) (realm : String),
      resolveCreds u none realm .unavailable =
        (.error .credentialsUnavailable, [])) ∧
    (∀ uname pw realm : String, uname ≠ "" →
      resolveCreds (some uname) (some pw) realm .unavailable =
        (.ok (.acquired (uname ++ "@" ++ realm)), [uname ++ "@" ++ realm])) ∧
    (∀ pw realm : String,
      resolveCreds none (some pw) realm .unavailable =
        (.error .credentialsUnavailable, [])) := by
  refine ⟨?_, ?_, ?_⟩
  · intro u realm
    by_cases hu : pyTruthy u <;> simp [resolveCreds, hu]
  · intro uname pw realm hu
    simp [resolveCreds, pyTruthy, hu]
  · intro pw realm
    rfl

/-- Witness for C4 (amended) at concrete inputs. -/
theorem C4_no_password_terminal_witness :
    resolveCreds (some "bob") none "REALM1" .unavailable =
      (.error .credentialsUnavailable, []) ∧
    (("bob" : String) ≠ "" ∧
      resolveCreds (some "bob") (some "pw") "REALM1" .unavailable =
        (.ok (.acquired ("bob" ++ "@" ++ "REALM1")), ["bob" ++ "@" ++ "REALM1"])) ∧
    resolveCreds none (some "pw") "REALM1" .unavailable =
      (.error .credentialsUnavailable, []) :=
  ⟨C4_no_password_terminal.1 (some "bob") "REALM1",
   ⟨by decide, C4_no_password_terminal.2.1 "bob" "pw" "REALM1" (by decide)⟩,
   C4_no_password_terminal.2.2 "pw" "REALM1"⟩

/-- C9: `get_store` names `FILE:` plus the `KRB5CCNAME` override when it
is set and non-empty, `FILE:` plus the per-user default
(`/tmp/krb5cc_<uid>` on POSIX, the fixed `%TEMP%` filename otherwise)
when it is unset, and raises the configuration error exactly when the
override is set and empty. -/
theorem tmp_ccache_ne_empty (uid : Nat) :
    "/tmp/krb5cc_" ++ toString uid ≠ "" := by
  intro h
  have hlen := congrArg String.length h
  rw [String.length_append] at hlen
  have h12 : ("/tmp/krb5cc_" : String).length = 12 := by decide
  have h0 : ("" : String).length = 0 := by decide
  omega

theorem C9_cache_location :
    (∀ (v : String) (posix : Bool) (uid : Nat), v ≠ "" →
      get_store (some v) posix uid = .ok [("ccache", "FILE:" ++ v)]) ∧
    (∀ uid : Nat, get_store none true uid =
      .ok [("ccache", "FILE:" ++ ("/tmp/krb5cc_" ++ toString uid))]) ∧
    (∀ uid : Nat, get_store none false uid =
      .ok [("ccache", "FILE:%TEMP%\\krb5cc")]) ∧
    (∀ (env : Option String) (posix : Bool) (uid : Nat),
      (∃ e, get_store env posix uid = .error e) ↔ env = some "") := by
  refine ⟨?_, ?_, ?_, ?_⟩
  · intro v posix uid hv
    simp [get_store, hv]
  · intro uid
    simp [get_store, tmp_ccache_ne_empty uid]
  · intro uid
    rfl
  · intro env posix uid
    match env with
    | none =>
      by_cases hp : posix
      · simp [get_store, hp, tmp_ccache_ne_empty uid]
      · simp [get_store, hp]
    | some v =>
      by_cases hv : v = ""
      · subst hv
        exact ⟨fun _ => rfl, fun _ => ⟨.emptyKrb5ccname, rfl⟩⟩
      · simp [get_store, hv]

/-- Witness for C9 at concrete override values. -/
theorem C9_cache_location_witness :
    (("/var/cc" : String) ≠ "" ∧
      get_store (some "/var/cc") true 1000 =
        .ok [("ccache", "FILE:" ++ "/var/cc")]) ∧
    get_store none true 1000 =
      .ok [("ccache", "FILE:" ++ ("/tmp/krb5cc_" ++ toString 1000))] ∧
    get_store none false 1000 = .ok [("ccache", "FILE:%TEMP%\\krb5cc")] ∧
    ((∃ e, get_store (some "") true 1000 = .error e) ↔
      (some "" : Option String) = some "") :=
  ⟨⟨by decide, C9_cache_location.1 "/var/cc" true 1000 (by decide)⟩,
   C9_cache_location.2.1 1000,
   C9_cache_location.2.2.1 1000,
   C9_cache_location.2.2.2 (some "") true 1000⟩

/-! ## Claims about the handshake controllers -/

/-- C5 fails as stated: on the SSPI backend a first call with no
authentication data does not return the password fallback — it initiates
the security context with a null target SPN. -/
theorem C5_counterexample :
    sspiAuthResponse none none none = .sspiInitiate none none sspiFlags ∧
    sspiAuthResponse none none none ≠ .passwordFallback :=
  ⟨rfl, by decide⟩

/-- C5 (amended): on a first call whose authentication data is absent or
empty, the GSSAPI backend returns the password fallback; the SSPI backend
never falls back — it initiates the security context with `targetspn`
`None` (passing a username/realm/password triple only when both username
and password are non-empty). -/
theorem C5_password_fallback :
    (∀ (u p : Option String) (cache : CacheState),
      gssapiAuthResponse none u p cache = .passwordFallback) ∧
    (∀ (u p : Option String) (cache : CacheState),
      gssapiAuthResponse (some []) u p cache = .passwordFallback) ∧
    (∀ u p : Option String,
      sspiAuthResponse none u p = .sspiInitiate none
        (if pyTruthy u ∧ pyTruthy p then
          some ⟨u.getD "", none, p.getD ""⟩ else none) sspiFlags) ∧
    (∀ u p : Option String,
      sspiAuthResponse (some []) u p = .sspiInitiate none
        (if pyTruthy u ∧ pyTruthy p then
          some ⟨u.getD "", none, p.getD ""⟩ else none) sspiFlags) :=
  ⟨fun _ _ _ => rfl, fun _ _ _ => rfl, fun _ _ => rfl, fun _ _ => rfl⟩

/-- C6 fails as stated: on the first challenge carrying a service
principal the SSPI backend initiates with only `ISC_REQ_MUTUAL_AUTH` and
`ISC_REQ_DELEGATE`; the extended-error flag is not requested. -/
theorem C6_counterexample :
    sspiAuthResponse (some [1, 0, 115, 1, 0, 82]) none none =
      .sspiInitiate (some "s") none
        [.mutualAuthentication, .delegateToPeer] ∧
    ReqFlag.extendedError ∉ sspiFlags :=
  ⟨by decide, by decide⟩

/-- C6 (amended): whenever the GSSAPI backend initiates a security
context it requests mutual authentication, extended error reporting and
delegation; whenever the SSPI backend initiates one it requests only
mutual authentication and delegation. -/
theorem C6_initiation_flags :
    (∀ (d : List Nat) (u p : Option String) (cache : CacheState)
        (spn : String) (creds : Creds) (flags : List ReqFlag)
        (acqs : List String),
      gssapiAuthResponse (some d) u p cache =
        .gssInitiate spn creds flags acqs →
      flags = [.mutualAuthentication, .extendedError, .delegateToPeer]) ∧
    (∀ (d : Option (List Nat)) (u p : Option String)
        (spn : Option String) (info : Option SspiAuthInfo)
        (flags : List ReqFlag),
      sspiAuthResponse d u p = .sspiInitiate spn info flags →
      flags = [.mutualAuthentication, .delegateToPeer]) := by
  constructor
  · intro d u p cache spn creds flags acqs h
    simp only [gssapiAuthResponse] at h
    split at h
    · exact absurd h (by simp)
    · split at h
      · exact absurd h (by simp)
      · exact absurd h (by simp)
      · split at h
        · exact absurd h (by simp)
        · obtain ⟨h1, h2, h3, h4⟩ := by simpa using h
          exact h3.symm
  · intro d u p spn info flags h
    simp only [sspiAuthResponse] at h
    split at h
    · exact absurd h (by simp)
    · exact absurd h (by simp)
    · obtain ⟨h1, h2, h3⟩ := by simpa using h
      exact h3.symm

/-- Witness for C6 (amended) at a concrete challenge packet carrying
SPN `s` and realm `R`. -/
theorem C6_initiation_flags_witness :
    gssapiAuthResponse (some [1, 0, 115, 1, 0, 82]) none none
        (.available "alice@REALM1") =
      .gssInitiate "s" (.cached "alice@REALM1") gssapiFlags [] ∧
    gssapiFlags = [.mutualAuthentication, .extendedError, .delegateToPeer] ∧
    sspiAuthResponse (some [1, 0, 115, 1, 0, 82]) none none =
      .sspiInitiate (some "s") none sspiFlags ∧
    sspiFlags = [.mutualAuthentication, .delegateToPeer] :=
  ⟨by decide,
   C6_initiation_flags.1 [1, 0, 115, 1, 0, 82] none none
     (.available "alice@REALM1") "s" (.cached "alice@REALM1") gssapiFlags []
     (by decide),
   by decide,
   C6_initiation_flags.2 (some [1, 0, 115, 1, 0, 82]) none none
     (some "s") none sspiFlags (by decide)⟩

/-- C7: calling the closing handshake with an incomplete security context
raises the `ProgrammingError`-class failure and performs no `wrap` or
`unwrap` call; with a complete context it unwraps the server message
(integrity failure raising the `InterfaceError`-class failure), wraps the
fixed response `0x01 0x00 0x00 0x00` without encryption, and returns the
wrapped bytes. -/
theorem C7_close_handshake (ctx : GssContext) (message : List Nat) :
    (ctx.complete = false →
      auth_accept_close_handshake ctx message =
        (.error .programmingError, [])) ∧
    (ctx.complete = true → ctx.unwrapRes message = none →
      auth_accept_close_handshake ctx message =
        (.error .interfaceError, [.unwrapCall message])) ∧
    (ctx.complete = true → ∀ u, ctx.unwrapRes message = some u →
      auth_accept_close_handshake ctx message =
        (.ok (ctx.wrapRes [1, 0, 0, 0] false),
          [.unwrapCall message, .wrapCall [1, 0, 0, 0] false])) := by
  refine ⟨?_, ?_, ?_⟩
  · intro h
    simp [auth_accept_close_handshake, h]
  · intro h hu
    simp [auth_accept_close_handshake, h, hu]
  · intro h u hu
    simp [auth_accept_close_handshake, h, hu]

/-- Witness for C7 on three concrete contexts: incomplete, complete with
failing unwrap, and complete with succeeding unwrap. -/
theorem C7_close_handshake_witness :
    (GssContext.complete ⟨false, fun _ => none, fun m _ => m⟩ = false ∧
      auth_accept_close_handshake ⟨false, fun _ => none, fun m _ => m⟩ [9] =
        (.error .programmingError, [])) ∧
    (auth_accept_close_handshake ⟨true, fun _ => none, fun m _ => m⟩ [9] =
      (.error .interfaceError, [.unwrapCall [9]])) ∧
    (auth_accept_close_handshake ⟨true, fun _ => some [], fun m _ => 7 :: m⟩ [9] =
      (.ok [7, 1, 0, 0, 0],
        [.unwrapCall [9], .wrapCall [1, 0, 0, 0] false])) :=
  ⟨⟨rfl, (C7_close_handshake ⟨false, fun _ => none, fun m _ => m⟩ [9]).1 rfl⟩,
   (C7_close_handshake ⟨true, fun _ => none, fun m _ => m⟩ [9]).2.1 rfl rfl,
   (C7_close_handshake ⟨true, fun _ => some [], fun m _ => 7 :: m⟩ [9]).2.2
     rfl [] rfl⟩

/-- C8: `auth_continue` reports completion exactly when the provider
reports the context complete after that round's step — never earlier; on
the scripted two-round provider the first continue round returns
`complete=false` and the second returns `complete=true`. -/
theorem C8_completion_reporting :
    (∀ (σ : Type) (P : NegotiationProvider σ) (ctx : σ)
        (ch : Option (List Nat)),
      (auth_continue P ctx ch).1.2 = P.complete (P.step ctx ch).2) ∧
    (∀ (rounds : Nat) (ch : Option (List Nat)),
      (auth_continue scriptedProvider rounds ch).1.2 = true ↔ rounds ≤ 1) ∧
    ((auth_continue scriptedProvider 2 none).1.2 = false ∧
      (auth_continue scriptedProvider
        (auth_continue scriptedProvider 2 none).2 none).1.2 = true) := by
  refine ⟨fun σ P ctx ch => rfl, ?_, by decide⟩
  intro rounds ch
  simp [auth_continue, scriptedProvider]
  omega

end KerberosPlugin
